import Mathlib

/-!
# Verification of the x402-sui Exact payment scheme facilitator

Shallow embedding of the facilitator's `ExactSuiScheme` (verify / settle /
extractAddress) and of the coin-type canonicalization used by its
balance-change matcher.  The effectful Chain Gateway (`FacilitatorSuiSigner`)
is modelled as a record of call results; a TypeScript promise rejection is an
`Except.error` carrying the error message.  JavaScript `BigInt` values are
embedded as `Int` (both are arbitrary-precision integers), and the decimal
strings the gateway returns for balance deltas / the requirements `amount`
are embedded already parsed.
-/

namespace X402Sui

/-- Ownership tag of a simulated balance change (`ObjectOwner` in the Sui
RPC types): address-owned, object-owned (child object), shared, or
immutable. -/
inductive ObjectOwner where
  | addressOwner (addr : String)
  | objectOwner (addr : String)
  | shared
  | immutable
  deriving DecidableEq, Repr

/-- One balance delta from a dry-run simulation.  `amount` is the signed
delta (positive = received), embedded as `Int` for the source's
`BigInt(bc.amount)`. -/
structure BalanceChange where
  owner : ObjectOwner
  coinType : String
  amount : Int
  deriving DecidableEq, Repr

/-- The `status` object of dry-run effects: a status string (`"success"` or
`"failure"`) and an optional chain-provided error text. -/
structure TxStatus where
  status : String
  error : Option String
  deriving DecidableEq, Repr

/-- The `effects` object of a dry-run response; `status` is optional to
mirror the source's `effects?.status?` optional chaining. -/
structure TxEffects where
  status : Option TxStatus
  deriving DecidableEq, Repr

/-- A dry-run simulation response (`DryRunTransactionBlockResponse`):
optional `effects` and an optional list of balance changes (the source
applies `?? []`). -/
structure DryRunResult where
  effects : Option TxEffects
  balanceChanges : Option (List BalanceChange)
  deriving DecidableEq, Repr

/-- Payment requirements issued by a resource server.  `amount` is the
minimum required quantity in smallest units, embedded as `Int` for the
source's `BigInt(requirements.amount)`. -/
structure PaymentRequirements where
  scheme : String
  network : String
  asset : String
  amount : Int
  payTo : String
  deriving DecidableEq, Repr

/-- The `{scheme, network}` pair the payer committed to. -/
structure Accepted where
  scheme : String
  network : String
  deriving DecidableEq, Repr

/-- Scheme-specific payload body: base64 signature and serialized
transaction bytes. -/
structure ExactSuiPayload where
  signature : String
  transaction : String
  deriving DecidableEq, Repr

/-- A payment payload.  `payload` is optional: the source probes
`suiPayload?.transaction` so an absent body must be representable. -/
structure PaymentPayload where
  accepted : Accepted
  payload : Option ExactSuiPayload
  deriving DecidableEq, Repr

/-- Result of `verify` (`VerifyResponse`).  `payer : Option String` mirrors
`string | undefined`. -/
structure VerifyResponse where
  isValid : Bool
  invalidReason : Option String
  invalidMessage : Option String
  payer : Option String
  deriving DecidableEq, Repr

/-- Result of `settle` (`SettleResponse`). -/
structure SettleResponse where
  success : Bool
  network : String
  transaction : String
  errorReason : Option String
  errorMessage : Option String
  payer : Option String
  deriving DecidableEq, Repr

/-- The Chain Gateway (`FacilitatorSuiSigner`) as a record of call
behaviours.  Each method takes the same arguments as in the source and
either returns (`Except.ok`) or rejects with an error message
(`Except.error`).  `simRejectsFirst` resolves the one nondeterministic
point: when BOTH concurrently launched calls of the parallel phase reject,
`Promise.all` surfaces whichever rejection settles first in real time;
`simRejectsFirst = true` means the simulation branch's rejection settled
before the signature branch's. -/
structure Gateway where
  verifySignature : String → String → String → Except String String
  simulateTransaction : String → String → Except String DryRunResult
  executeTransaction : String → String → String → Except String String
  waitForTransaction : String → String → Except String Unit
  simRejectsFirst : Bool

/-- Join of the two concurrent gateway calls (`Promise.all([sig, sim])`):
ok when both are ok; otherwise the error of the only rejecting branch, or,
when both reject, of the branch whose rejection settled first. -/
def promiseAll2 (simRejectsFirst : Bool) (sig : Except String String)
    (sim : Except String DryRunResult) : Except String (String × DryRunResult) :=
  match sig, sim with
  | .ok a, .ok b => .ok (a, b)
  | .error e, .ok _ => .error e
  | .ok _, .error e => .error e
  | .error e1, .error e2 => .error (if simRejectsFirst then e2 else e1)

/-- Split a character list at each (leftmost, non-overlapping) occurrence
of the two-character separator `::`, as JavaScript `split("::")` does. -/
def splitOnColons : List Char → List (List Char)
  | [] => [[]]
  | ':' :: ':' :: rest => [] :: splitOnColons rest
  | c :: rest =>
    match splitOnColons rest with
    | [] => [[c]]
    | h :: t => (c :: h) :: t

/-- Modelled from the spec: `normalizeSuiAddress` of the `@mysten/sui/utils`
library (a dependency outside this repository), which canonicalizes a Sui
address by lowercasing, stripping an optional `0x` prefix, and left-padding
the hex digits with zeros to 64 characters. -/
def normalizeSuiAddress (value : String) : String :=
  let address := value.data.map Char.toLower
  let address :=
    match address with
    | '0' :: 'x' :: rest => rest
    | l => l
  "0x" ++ String.mk (List.replicate (64 - address.length) '0' ++ address)

/-- Modelled from the spec: `normalizeStructTag` of the `@mysten/sui/utils`
library (a dependency outside this repository), restricted to the
non-generic `address::module::name` coin types this scheme compares: the
address component is canonicalized so representational differences such as
leading zeros or casing do not cause mismatches. -/
def normalizeStructTag (t : String) : String :=
  match splitOnColons t.data with
  | [addr, md, nm] =>
    normalizeSuiAddress (String.mk addr) ++ "::" ++ String.mk md ++ "::" ++ String.mk nm
  | _ => t

/-- `coinTypesEqual` from `src/utils.ts`: equality of coin types after
normalization. -/
def coinTypesEqual (a b : String) : Bool :=
  normalizeStructTag a == normalizeStructTag b

/-- `ExactSuiScheme.extractAddress`: the address of an address-owned
balance change, or the empty string for every other ownership tag (and for
the string-typed `"Immutable"` encoding). -/
def extractAddress : ObjectOwner → String
  | .addressOwner a => a
  | _ => ""

/-- JavaScript `a || dflt` on an optional string: the string when present
and non-empty (truthy), otherwise the default. -/
def jsOrElse (s : Option String) (dflt : String) : String :=
  match s with
  | some v => if v = "" then dflt else v
  | none => dflt

/-- `hasSubList pat s` holds when `pat` occurs as a contiguous sublist of
`s` (JavaScript `String.prototype.includes` on the character lists). -/
def hasSubList (pat : List Char) : List Char → Bool
  | [] => pat.isEmpty
  | c :: rest => pat.isPrefixOf (c :: rest) || hasSubList pat rest

/-- The error-content classifier of the parallel phase's catch block:
the message marks a signature failure when it contains
`"Signature verification failed"` or `"Invalid signature"`. -/
def isSignatureError (msg : String) : Bool :=
  hasSubList "Signature verification failed".data msg.data ||
    hasSubList "Invalid signature".data msg.data

/-- The `effects?.status?.status` optional chain of a dry-run response. -/
def dryRunStatus (d : DryRunResult) : Option String :=
  (d.effects.bind TxEffects.status).map TxStatus.status

/-- The `effects?.status?.error` optional chain of a dry-run response. -/
def dryRunError (d : DryRunResult) : Option String :=
  (d.effects.bind TxEffects.status).bind TxStatus.error

/-- `ExactSuiScheme.verify` from `src/exact/facilitator/scheme.ts`:
scheme check, network check, payload-shape check, then the parallel
signature-recovery / simulation phase, effect-status check, balance-change
match (recipient by raw address equality, asset by `coinTypesEqual`), and
minimum-amount check.  Rejections of the parallel phase are caught and
classified by error content. -/
def verify (g : Gateway) (payload : PaymentPayload)
    (requirements : PaymentRequirements) : VerifyResponse :=
  if payload.accepted.scheme != "exact" || requirements.scheme != "exact" then
    { isValid := false, invalidReason := some "unsupported_scheme",
      invalidMessage := none, payer := none }
  else if payload.accepted.network != requirements.network then
    { isValid := false, invalidReason := some "network_mismatch",
      invalidMessage := none, payer := none }
  else
    match payload.payload with
    | none =>
      { isValid := false,
        invalidReason := some "invalid_exact_sui_payload_transaction_could_not_be_decoded",
        invalidMessage := none, payer := none }
    | some suiPayload =>
      if suiPayload.transaction == "" || suiPayload.signature == "" then
        { isValid := false,
          invalidReason := some "invalid_exact_sui_payload_transaction_could_not_be_decoded",
          invalidMessage := none, payer := none }
      else
        match promiseAll2 g.simRejectsFirst
            (g.verifySignature suiPayload.transaction suiPayload.signature
              requirements.network)
            (g.simulateTransaction suiPayload.transaction requirements.network) with
        | .error errorMessage =>
          if isSignatureError errorMessage then
            { isValid := false,
              invalidReason :=
                some "invalid_exact_sui_payload_transaction_signature_verification_failed",
              invalidMessage := some errorMessage, payer := none }
          else
            { isValid := false, invalidReason := some "transaction_simulation_failed",
              invalidMessage := some errorMessage, payer := none }
        | .ok (payer, dryRunResult) =>
          if dryRunStatus dryRunResult != some "success" then
            { isValid := false,
              invalidReason := some "invalid_exact_sui_payload_transaction_dry_run_failed",
              invalidMessage := some (jsOrElse (dryRunError dryRunResult) "Simulation failed"),
              payer := some payer }
          else
            let balanceChanges := dryRunResult.balanceChanges.getD []
            match balanceChanges.find? (fun bc =>
                extractAddress bc.owner == requirements.payTo &&
                coinTypesEqual bc.coinType requirements.asset) with
            | none =>
              match balanceChanges.find? (fun bc =>
                  extractAddress bc.owner == requirements.payTo) with
              | some _ =>
                { isValid := false,
                  invalidReason := some "invalid_exact_sui_payload_asset_mismatch",
                  invalidMessage := none, payer := some payer }
              | none =>
                { isValid := false,
                  invalidReason := some "invalid_exact_sui_payload_recipient_mismatch",
                  invalidMessage := none, payer := some payer }
            | some recipientChange =>
              if recipientChange.amount < requirements.amount then
                { isValid := false,
                  invalidReason := some "invalid_exact_sui_payload_amount_insufficient",
                  invalidMessage := none, payer := some payer }
              else
                { isValid := true, invalidReason := none,
                  invalidMessage := none, payer := some payer }

/-- `ExactSuiScheme.settle` from `src/exact/facilitator/scheme.ts`, paired
with an instrumentation bit recording whether the gateway's broadcast
(`executeTransaction`) was invoked.  Settle re-runs `verify`
(defense-in-depth), short-circuits on an invalid verdict without
broadcasting, otherwise broadcasts and awaits finality, catching either
rejection as `transaction_failed`.  The `payload.payload = none` branch is
unreachable after a valid verify; there the source's property access on
`undefined` throws inside the try block before `executeTransaction` is
called, which the catch turns into `transaction_failed`. -/
def settle (g : Gateway) (payload : PaymentPayload)
    (requirements : PaymentRequirements) : SettleResponse × Bool :=
  let verification := verify g payload requirements
  if !verification.isValid then
    ({ success := false, network := payload.accepted.network, transaction := "",
       errorReason := some (verification.invalidReason.getD "verification_failed"),
       errorMessage := none, payer := verification.payer }, false)
  else
    match payload.payload with
    | none =>
      ({ success := false, network := payload.accepted.network, transaction := "",
         errorReason := some "transaction_failed",
         errorMessage := some "TypeError: Cannot read properties of undefined",
         payer := verification.payer }, false)
    | some suiPayload =>
      match g.executeTransaction suiPayload.transaction suiPayload.signature
          requirements.network with
      | .error e =>
        ({ success := false, network := payload.accepted.network, transaction := "",
           errorReason := some "transaction_failed", errorMessage := some e,
           payer := verification.payer }, true)
      | .ok digest =>
        match g.waitForTransaction digest requirements.network with
        | .error e =>
          ({ success := false, network := payload.accepted.network, transaction := "",
             errorReason := some "transaction_failed", errorMessage := some e,
             payer := verification.payer }, true)
        | .ok _ =>
          ({ success := true, network := payload.accepted.network, transaction := digest,
             errorReason := none, errorMessage := none,
             payer := verification.payer }, true)

/-- The closed taxonomy of `invalidReason` strings `verify` can emit.  The
spec names them with short labels; the code's literal strings are:
`unsupported_scheme`, `network_mismatch`, `malformed_payload` =
`invalid_exact_sui_payload_transaction_could_not_be_decoded`,
`signature_verification_failed` =
`invalid_exact_sui_payload_transaction_signature_verification_failed`,
`simulation_failed` = `transaction_simulation_failed`, `dry_run_failed` =
`invalid_exact_sui_payload_transaction_dry_run_failed`, and the
`invalid_exact_sui_payload_`-prefixed mismatch/insufficiency reasons. -/
def verifyReasons : List String :=
  ["unsupported_scheme", "network_mismatch",
   "invalid_exact_sui_payload_transaction_could_not_be_decoded",
   "invalid_exact_sui_payload_transaction_signature_verification_failed",
   "transaction_simulation_failed",
   "invalid_exact_sui_payload_transaction_dry_run_failed",
   "invalid_exact_sui_payload_asset_mismatch",
   "invalid_exact_sui_payload_recipient_mismatch",
   "invalid_exact_sui_payload_amount_insufficient"]

/-- The closed taxonomy of `errorReason` strings `settle` can emit: any
verify reason (defense-in-depth pass-through), the generic
`verification_failed` fallback, and `transaction_failed`. -/
def settleReasons : List String :=
  verifyReasons ++ ["verification_failed", "transaction_failed"]

/-! Concrete fixtures, mirroring the repository's own test mocks
(`MOCK_PAYER = 0xb…b`, `MOCK_PAYTO = 0xc…c`, mainnet USDC, amount
`100000`). -/

/-- Mock payer address (64 `b` hex digits). -/
def addrPayer : String :=
  "0xbbbbbbbbbbbbbbbbbbbbbbbbbbbbbbbbbbbbbbbbbbbbbbbbbbbbbbbbbbbbbbbb"

/-- Mock recipient address (64 `c` hex digits). -/
def addrPayTo : String :=
  "0xcccccccccccccccccccccccccccccccccccccccccccccccccccccccccccccccc"

/-- A different, wrong recipient address (64 `d` hex digits). -/
def addrOther : String :=
  "0xdddddddddddddddddddddddddddddddddddddddddddddddddddddddddddddddd"

/-- The address `0x2` written out in full zero-padded form. -/
def addrTwoFull : String :=
  "0x0000000000000000000000000000000000000000000000000000000000000002"

/-- `USDC_MAINNET` from `src/constants.ts`. -/
def usdcMainnet : String :=
  "0xdba34672e30cb065b1f93e3ab55318768fd6fef66c15942c9f7cb846e2f900e7::usdc::USDC"

/-- `SUI_COIN_TYPE` from `src/constants.ts` (short-form address). -/
def suiCoinShort : String := "0x2::sui::SUI"

/-- The SUI coin type with its address written out in full zero-padded
form: syntactically different from `suiCoinShort`, semantically the same
asset. -/
def suiCoinFull : String :=
  "0x0000000000000000000000000000000000000000000000000000000000000002::sui::SUI"

/-- A well-formed payload for the exact scheme on `sui:mainnet`. -/
def payloadStd : PaymentPayload :=
  { accepted := { scheme := "exact", network := "sui:mainnet" },
    payload := some { signature := "mock-signature-base64",
                      transaction := "mock-transaction-base64" } }

/-- The body carried by `payloadStd`. -/
def spStd : ExactSuiPayload :=
  { signature := "mock-signature-base64", transaction := "mock-transaction-base64" }

/-- A payload whose accepted scheme is not `exact`. -/
def payloadWrongScheme : PaymentPayload :=
  { payloadStd with accepted := { scheme := "other", network := "sui:mainnet" } }

/-- Standard requirements: 100000 units of mainnet USDC to `addrPayTo`. -/
def reqStd : PaymentRequirements :=
  { scheme := "exact", network := "sui:mainnet", asset := usdcMainnet,
    amount := 100000, payTo := addrPayTo }

/-- Requirements whose `payTo` uses the short form `0x2` of an address. -/
def reqShortPayTo : PaymentRequirements := { reqStd with payTo := "0x2" }

/-- Requirements with an empty `payTo`. -/
def reqEmptyPayTo : PaymentRequirements := { reqStd with payTo := "" }

/-- Requirements asking for the SUI coin type in full zero-padded form. -/
def reqPadAsset : PaymentRequirements := { reqStd with asset := suiCoinFull }

/-- A successful dry-run response carrying the given balance changes. -/
def successDryRun (bcs : List BalanceChange) : DryRunResult :=
  { effects := some { status := some { status := "success", error := none } },
    balanceChanges := some bcs }

/-- A failed dry-run response carrying the given chain error text. -/
def failedDryRun (err : String) : DryRunResult :=
  { effects := some { status := some { status := "failure", error := some err } },
    balanceChanges := some [] }

/-- A gateway with constant behaviours for every call. -/
def mkGateway (sig : Except String String) (sim : Except String DryRunResult)
    (ex : Except String String) (wt : Except String Unit) (srf : Bool) : Gateway :=
  { verifySignature := fun _ _ _ => sig,
    simulateTransaction := fun _ _ => sim,
    executeTransaction := fun _ _ _ => ex,
    waitForTransaction := fun _ _ => wt,
    simRejectsFirst := srf }

/-- Gateway for a fully valid payment: signature recovers `addrPayer`,
simulation pays `reqStd.amount` of USDC to `addrPayTo`, broadcast yields a
digest, finality succeeds. -/
def gwValid : Gateway :=
  mkGateway (.ok addrPayer)
    (.ok (successDryRun
      [{ owner := .addressOwner addrPayTo, coinType := usdcMainnet, amount := 100000 }]))
    (.ok "mock-digest-123") (.ok ()) false

/-- Gateway whose simulation pays the right recipient the wrong asset
(SUI instead of USDC). -/
def gwSuiCoin : Gateway :=
  mkGateway (.ok addrPayer)
    (.ok (successDryRun
      [{ owner := .addressOwner addrPayTo, coinType := suiCoinShort, amount := 100000 }]))
    (.ok "mock-digest-123") (.ok ()) false

/-- Gateway whose simulation pays the right recipient and asset but only
half of the required amount. -/
def gwInsufficient : Gateway :=
  mkGateway (.ok addrPayer)
    (.ok (successDryRun
      [{ owner := .addressOwner addrPayTo, coinType := usdcMainnet, amount := 50000 }]))
    (.ok "mock-digest-123") (.ok ()) false

/-- Gateway whose simulation reports a failed effect status. -/
def gwDryRunFail : Gateway :=
  mkGateway (.ok addrPayer) (.ok (failedDryRun "InsufficientCoinBalance"))
    (.ok "mock-digest-123") (.ok ()) false

/-- Gateway whose signature recovery succeeds while the simulation call
itself rejects with a transport error. -/
def gwSimReject : Gateway :=
  mkGateway (.ok addrPayer) (.error "ECONNRESET")
    (.ok "mock-digest-123") (.ok ()) false

/-- Gateway whose signature recovery rejects and whose simulation
succeeds. -/
def gwSigReject : Gateway :=
  mkGateway (.error "Invalid signature")
    (.ok (successDryRun
      [{ owner := .addressOwner addrPayTo, coinType := usdcMainnet, amount := 100000 }]))
    (.ok "mock-digest-123") (.ok ()) false

/-- Gateway where BOTH parallel calls reject and the simulation rejection
settles first (`simRejectsFirst = true`). -/
def gwBothReject : Gateway :=
  mkGateway (.error "Invalid signature") (.error "ECONNRESET")
    (.ok "mock-digest-123") (.ok ()) true

/-- Gateway whose simulation pays USDC to the fully zero-padded address
`addrTwoFull` (to be matched against a short-form `payTo`). -/
def gwPadRecipient : Gateway :=
  mkGateway (.ok addrPayer)
    (.ok (successDryRun
      [{ owner := .addressOwner addrTwoFull, coinType := usdcMainnet, amount := 100000 }]))
    (.ok "mock-digest-123") (.ok ()) false

/-- Gateway whose simulation credits a SHARED-owned entity with the
required asset and amount. -/
def gwShared : Gateway :=
  mkGateway (.ok addrPayer)
    (.ok (successDryRun
      [{ owner := .shared, coinType := usdcMainnet, amount := 100000 }]))
    (.ok "mock-digest-123") (.ok ()) false

/-- Gateway where verification passes but broadcast rejects with a network
error. -/
def gwExecReject : Gateway :=
  mkGateway (.ok addrPayer)
    (.ok (successDryRun
      [{ owner := .addressOwner addrPayTo, coinType := usdcMainnet, amount := 100000 }]))
    (.error "Network error") (.ok ()) false

/-- The `Promise.all` join returns a pair exactly when both branches
returned. -/
lemma promiseAll2_ok_iff {f : Bool} {s : Except String String}
    {m : Except String DryRunResult} {a : String} {b : DryRunResult} :
    promiseAll2 f s m = .ok (a, b) ↔ s = .ok a ∧ m = .ok b := by
  cases s <;> cases m <;> simp [promiseAll2]

/-- Reduction of `verify` under passing pre-checks, a successful parallel
phase, and a successful dry-run status: only the balance-change matching
remains. -/
lemma verify_join (g : Gateway) (p : PaymentPayload) (r : PaymentRequirements)
    (sp : ExactSuiPayload) (payer : String) (d : DryRunResult)
    (h1 : p.accepted.scheme = "exact") (h2 : r.scheme = "exact")
    (h3 : p.accepted.network = r.network)
    (h4 : p.payload = some sp) (h5 : sp.transaction ≠ "") (h6 : sp.signature ≠ "")
    (hsig : g.verifySignature sp.transaction sp.signature r.network = .ok payer)
    (hsim : g.simulateTransaction sp.transaction r.network = .ok d)
    (hst : dryRunStatus d = some "success") :
    verify g p r =
      match (d.balanceChanges.getD []).find? (fun bc =>
          extractAddress bc.owner == r.payTo && coinTypesEqual bc.coinType r.asset) with
      | none =>
        match (d.balanceChanges.getD []).find? (fun bc =>
            extractAddress bc.owner == r.payTo) with
        | some _ =>
          { isValid := false, invalidReason := some "invalid_exact_sui_payload_asset_mismatch",
            invalidMessage := none, payer := some payer }
        | none =>
          { isValid := false,
            invalidReason := some "invalid_exact_sui_payload_recipient_mismatch",
            invalidMessage := none, payer := some payer }
      | some recipientChange =>
        if recipientChange.amount < r.amount then
          { isValid := false,
            invalidReason := some "invalid_exact_sui_payload_amount_insufficient",
            invalidMessage := none, payer := some payer }
        else
          { isValid := true, invalidReason := none, invalidMessage := none,
            payer := some payer } := by
  simp [verify, h1, h2, h3, h4, h5, h6, hsig, hsim, promiseAll2, hst]

/-- Every result of `verify` is either valid or carries a reason from the
closed taxonomy. -/
lemma verify_taxonomy (g : Gateway) (p : PaymentPayload) (r : PaymentRequirements) :
    (verify g p r).isValid = true ∨
      ∃ s ∈ verifyReasons, (verify g p r).invalidReason = some s := by
  simp only [verify]
  repeat' split
  all_goals first
  | (left; rfl)
  | (right; refine ⟨_, ?_, rfl⟩; decide)

/-- A valid `verify` result can only arise from a payload body whose
signature recovery returned, and its `payer` is the recovered signer. -/
lemma verify_valid_shape (g : Gateway) (p : PaymentPayload) (r : PaymentRequirements)
    (h : (verify g p r).isValid = true) :
    ∃ sp payer, p.payload = some sp ∧
      g.verifySignature sp.transaction sp.signature r.network = .ok payer ∧
      verify g p r =
        { isValid := true, invalidReason := none, invalidMessage := none,
          payer := some payer } := by
  revert h
  simp only [verify]
  repeat' split
  all_goals intro h
  all_goals simp at h
  rename_i x2 sp hpl hmal x1 payer d hjoin hst x rc hfind hamt
  exact ⟨sp, payer, hpl, (promiseAll2_ok_iff.mp hjoin).1, rfl⟩

/-- C1: settlement defense-in-depth.  Whenever `verify` rejects a
payload/requirements pair, `settle` on that pair returns `success = false`
with `errorReason` equal to the re-verification's `invalidReason`
(defaulting to `verification_failed` when absent), an empty transaction
digest, the payer the re-verification recovered (possibly none), and the
gateway's broadcast is never invoked (the instrumentation bit is `false`),
so chain state is untouched. -/
theorem settle_defense_in_depth (g : Gateway) (p : PaymentPayload)
    (r : PaymentRequirements) (h : (verify g p r).isValid = false) :
    settle g p r =
      ({ success := false, network := p.accepted.network, transaction := "",
         errorReason := some ((verify g p r).invalidReason.getD "verification_failed"),
         errorMessage := none, payer := (verify g p r).payer }, false) := by
  simp [settle, h]

/-- C1 witness: a payload with a wrong scheme fails verification, and
settling it returns the structured failure without broadcasting. -/
theorem settle_defense_in_depth_witness :
    (verify gwValid payloadWrongScheme reqStd).isValid = false ∧
    settle gwValid payloadWrongScheme reqStd =
      ({ success := false, network := payloadWrongScheme.accepted.network,
         transaction := "",
         errorReason :=
           some ((verify gwValid payloadWrongScheme reqStd).invalidReason.getD
             "verification_failed"),
         errorMessage := none,
         payer := (verify gwValid payloadWrongScheme reqStd).payer }, false) :=
  ⟨by decide, settle_defense_in_depth gwValid payloadWrongScheme reqStd (by decide)⟩

/-- For a non-empty recipient, the code's comparison
`extractAddress owner = payTo` holds exactly when the owner IS
address-owned by `payTo`; the sentinel `""` for the other ownership tags
can only interfere when `payTo` is empty. -/
lemma extractAddress_eq_iff (o : ObjectOwner) (payTo : String) (h : payTo ≠ "") :
    extractAddress o = payTo ↔ o = ObjectOwner.addressOwner payTo := by
  cases o with
  | addressOwner a => simp [extractAddress]
  | objectOwner a => simp [extractAddress, Ne.symm h]
  | shared => simp [extractAddress, Ne.symm h]
  | immutable => simp [extractAddress, Ne.symm h]

/-- C2 counterexample: the claim universally quantifies over every
`payTo` value, but at `payTo = ""` it fails on the code: here NO balance
change is address-owned by `payTo` (the only change is shared-owned), yet
verify does not return `recipient_mismatch` — it returns `isValid = true`,
because `extractAddress` maps the shared owner to the sentinel `""`,
which equals the empty `payTo` (the C7 defect). -/
theorem mismatch_disambiguation_counterexample :
    (∀ bc ∈ ((successDryRun
        [{ owner := .shared, coinType := usdcMainnet,
           amount := 100000 }]).balanceChanges.getD []),
      bc.owner ≠ ObjectOwner.addressOwner reqEmptyPayTo.payTo) ∧
    verify gwShared payloadStd reqEmptyPayTo =
      { isValid := true, invalidReason := none, invalidMessage := none,
        payer := some addrPayer } ∧
    (verify gwShared payloadStd reqEmptyPayTo).invalidReason ≠
      some "invalid_exact_sui_payload_recipient_mismatch" := by
  refine ⟨by decide, by decide, by decide⟩

/-- C2 amended: mismatch disambiguation for a NON-EMPTY `payTo` (the
counterexample shows the empty recipient is the sole exception).  With
pre-checks passed, signature recovery succeeded, the dry-run effect status
`success`, and `requirements.payTo ≠ ""`: when no balance change is
address-owned by `payTo`, verify reports `recipient_mismatch` (code string
`invalid_exact_sui_payload_recipient_mismatch`); when at least one change
is address-owned by `payTo` but none of those matches the required asset,
verify reports `asset_mismatch` and never `recipient_mismatch`. -/
theorem mismatch_disambiguation_amended (g : Gateway) (p : PaymentPayload)
    (r : PaymentRequirements) (sp : ExactSuiPayload) (payer : String) (d : DryRunResult)
    (h1 : p.accepted.scheme = "exact") (h2 : r.scheme = "exact")
    (h3 : p.accepted.network = r.network)
    (h4 : p.payload = some sp) (h5 : sp.transaction ≠ "") (h6 : sp.signature ≠ "")
    (hsig : g.verifySignature sp.transaction sp.signature r.network = .ok payer)
    (hsim : g.simulateTransaction sp.transaction r.network = .ok d)
    (hst : dryRunStatus d = some "success")
    (hpt : r.payTo ≠ "") :
    ((∀ bc ∈ d.balanceChanges.getD [], bc.owner ≠ ObjectOwner.addressOwner r.payTo) →
      verify g p r =
        { isValid := false,
          invalidReason := some "invalid_exact_sui_payload_recipient_mismatch",
          invalidMessage := none, payer := some payer }) ∧
    ((∃ bc ∈ d.balanceChanges.getD [], bc.owner = ObjectOwner.addressOwner r.payTo) →
     (∀ bc ∈ d.balanceChanges.getD [], bc.owner = ObjectOwner.addressOwner r.payTo →
        coinTypesEqual bc.coinType r.asset = false) →
      verify g p r =
        { isValid := false,
          invalidReason := some "invalid_exact_sui_payload_asset_mismatch",
          invalidMessage := none, payer := some payer } ∧
      (verify g p r).invalidReason ≠
        some "invalid_exact_sui_payload_recipient_mismatch") := by
  rw [verify_join g p r sp payer d h1 h2 h3 h4 h5 h6 hsig hsim hst]
  constructor
  · intro hA
    have hA' : ∀ bc ∈ d.balanceChanges.getD [], extractAddress bc.owner ≠ r.payTo :=
      fun bc hbc he => hA bc hbc ((extractAddress_eq_iff bc.owner r.payTo hpt).mp he)
    have hn1 : (d.balanceChanges.getD []).find? (fun bc =>
        extractAddress bc.owner == r.payTo && coinTypesEqual bc.coinType r.asset) = none :=
      List.find?_eq_none.mpr (fun x hx => by simp [hA' x hx])
    have hn2 : (d.balanceChanges.getD []).find? (fun bc =>
        extractAddress bc.owner == r.payTo) = none :=
      List.find?_eq_none.mpr (fun x hx => by simp [hA' x hx])
    rw [hn1, hn2]
  · intro hB1 hB2
    have hB2' : ∀ bc ∈ d.balanceChanges.getD [], extractAddress bc.owner = r.payTo →
        coinTypesEqual bc.coinType r.asset = false :=
      fun bc hbc he => hB2 bc hbc ((extractAddress_eq_iff bc.owner r.payTo hpt).mp he)
    have hn1 : (d.balanceChanges.getD []).find? (fun bc =>
        extractAddress bc.owner == r.payTo && coinTypesEqual bc.coinType r.asset) = none := by
      refine List.find?_eq_none.mpr (fun x hx => ?_)
      by_cases hx2 : extractAddress x.owner = r.payTo
      · simp [hx2, hB2' x hx hx2]
      · simp [hx2]
    obtain ⟨y, hy, hy2⟩ := hB1
    have hy2' : extractAddress y.owner = r.payTo :=
      (extractAddress_eq_iff y.owner r.payTo hpt).mpr hy2
    have hs : ((d.balanceChanges.getD []).find? (fun bc =>
        extractAddress bc.owner == r.payTo)).isSome :=
      List.find?_isSome.mpr ⟨y, hy, by simp [hy2']⟩
    obtain ⟨z, hz⟩ := Option.isSome_iff_exists.mp hs
    rw [hn1, hz]
    exact ⟨rfl, by simp⟩

/-- C2 witness: with a non-empty `payTo`, a change paying SUI (not the
required USDC) to the right recipient yields `asset_mismatch`, not
`recipient_mismatch`. -/
theorem mismatch_disambiguation_amended_witness :
    reqStd.payTo ≠ "" ∧
    coinTypesEqual suiCoinShort reqStd.asset = false ∧
    verify gwSuiCoin payloadStd reqStd =
      { isValid := false,
        invalidReason := some "invalid_exact_sui_payload_asset_mismatch",
        invalidMessage := none, payer := some addrPayer } ∧
    (verify gwSuiCoin payloadStd reqStd).invalidReason ≠
      some "invalid_exact_sui_payload_recipient_mismatch" :=
  ⟨by decide, by decide,
   (mismatch_disambiguation_amended gwSuiCoin payloadStd reqStd spStd addrPayer _
      rfl rfl rfl rfl (by decide) (by decide) rfl rfl rfl
      (by decide)).2 (by decide) (by decide)⟩

/-- C3: minimum-amount threshold.  When the matcher finds a change for the
required recipient and asset, verify reports `amount_insufficient` exactly
when that change's delta — compared as an arbitrary-precision integer
(`Int` embeds JavaScript `BigInt`; no floating point exists in the
pipeline) — is strictly below `requirements.amount`; otherwise (equality
or overpayment) the result is valid. -/
theorem amount_threshold (g : Gateway) (p : PaymentPayload)
    (r : PaymentRequirements) (sp : ExactSuiPayload) (payer : String)
    (d : DryRunResult) (rc : BalanceChange)
    (h1 : p.accepted.scheme = "exact") (h2 : r.scheme = "exact")
    (h3 : p.accepted.network = r.network)
    (h4 : p.payload = some sp) (h5 : sp.transaction ≠ "") (h6 : sp.signature ≠ "")
    (hsig : g.verifySignature sp.transaction sp.signature r.network = .ok payer)
    (hsim : g.simulateTransaction sp.transaction r.network = .ok d)
    (hst : dryRunStatus d = some "success")
    (hfind : (d.balanceChanges.getD []).find? (fun bc =>
        extractAddress bc.owner == r.payTo && coinTypesEqual bc.coinType r.asset) = some rc) :
    verify g p r =
      if rc.amount < r.amount then
        { isValid := false,
          invalidReason := some "invalid_exact_sui_payload_amount_insufficient",
          invalidMessage := none, payer := some payer }
      else
        { isValid := true, invalidReason := none, invalidMessage := none,
          payer := some payer } := by
  rw [verify_join g p r sp payer d h1 h2 h3 h4 h5 h6 hsig hsim hst, hfind]

/-- C3 witness: a delta of 50000 against a required 100000 is classified
`amount_insufficient`. -/
theorem amount_threshold_witness :
    ({ owner := ObjectOwner.addressOwner addrPayTo, coinType := usdcMainnet,
       amount := 50000 } : BalanceChange).amount < reqStd.amount ∧
    verify gwInsufficient payloadStd reqStd =
      { isValid := false,
        invalidReason := some "invalid_exact_sui_payload_amount_insufficient",
        invalidMessage := none, payer := some addrPayer } :=
  ⟨by decide, by
    have h := amount_threshold gwInsufficient payloadStd reqStd spStd addrPayer _
      ({ owner := ObjectOwner.addressOwner addrPayTo, coinType := usdcMainnet,
         amount := 50000 })
      rfl rfl rfl rfl (by decide) (by decide) rfl rfl rfl rfl
    simpa using h⟩

/-- C4 counterexample: the claim "whenever signature recovery succeeds the
result's payer is non-empty, regardless of which later step fails —
including a simulation error" is false.  Here signature recovery succeeds
(`.ok addrPayer`) but the simulation call rejects, and the joint catch
path discards the recovered signer: `payer = none`. -/
theorem payer_propagation_counterexample :
    gwSimReject.verifySignature spStd.transaction spStd.signature reqStd.network =
      .ok addrPayer ∧
    verify gwSimReject payloadStd reqStd =
      { isValid := false, invalidReason := some "transaction_simulation_failed",
        invalidMessage := some "ECONNRESET", payer := none } ∧
    (verify gwSimReject payloadStd reqStd).payer = none := by
  refine ⟨rfl, by decide, by decide⟩

/-- C4 amended: whenever signature recovery succeeds AND the simulation
call returns (the parallel join does not reject), the result's `payer`
equals the recovered signer in every later branch — dry-run effect
failure, recipient/asset mismatch, insufficient amount, or success. -/
theorem payer_propagation_amended (g : Gateway) (p : PaymentPayload)
    (r : PaymentRequirements) (sp : ExactSuiPayload) (payer : String) (d : DryRunResult)
    (h1 : p.accepted.scheme = "exact") (h2 : r.scheme = "exact")
    (h3 : p.accepted.network = r.network)
    (h4 : p.payload = some sp) (h5 : sp.transaction ≠ "") (h6 : sp.signature ≠ "")
    (hsig : g.verifySignature sp.transaction sp.signature r.network = .ok payer)
    (hsim : g.simulateTransaction sp.transaction r.network = .ok d) :
    (verify g p r).payer = some payer := by
  simp only [verify, h4]
  simp [h1, h2, h3, h5, h6, hsig, hsim, promiseAll2]
  split <;> first
  | rfl
  | (split <;> first
      | rfl
      | (split <;> rfl))

/-- C4 witness: with a failed dry-run effect status (a later step failing)
the recovered payer is still propagated. -/
theorem payer_propagation_amended_witness :
    (verify gwDryRunFail payloadStd reqStd).invalidReason =
      some "invalid_exact_sui_payload_transaction_dry_run_failed" ∧
    (verify gwDryRunFail payloadStd reqStd).payer = some addrPayer :=
  ⟨by decide,
   payer_propagation_amended gwDryRunFail payloadStd reqStd spStd addrPayer _
     rfl rfl rfl rfl (by decide) (by decide) rfl rfl⟩

/-- C5 counterexample: the claim "when both branches fail, the signature
failure takes precedence in the classification" is false.  Both gateway
calls reject; the simulation rejection (`"ECONNRESET"`) settles first, so
`Promise.all` surfaces it and `verify` classifies the failure as
`transaction_simulation_failed`, not as the signature failure. -/
theorem parallel_failure_precedence_counterexample :
    gwBothReject.verifySignature spStd.transaction spStd.signature reqStd.network =
      .error "Invalid signature" ∧
    gwBothReject.simulateTransaction spStd.transaction reqStd.network =
      .error "ECONNRESET" ∧
    verify gwBothReject payloadStd reqStd =
      { isValid := false, invalidReason := some "transaction_simulation_failed",
        invalidMessage := some "ECONNRESET", payer := none } ∧
    (verify gwBothReject payloadStd reqStd).invalidReason ≠
      some "invalid_exact_sui_payload_transaction_signature_verification_failed" := by
  refine ⟨rfl, rfl, by decide, by decide⟩

/-- C5 amended: if either of the two concurrent gateway calls rejects,
verify returns an invalid result with `payer = none`, classified by the
CONTENT of the surfaced (first-settled) rejection's message — messages
containing the signature markers map to
`signature_verification_failed`, all others (simulation transport errors
included) to `simulation_failed`; when both branches fail, the signature
rejection is the one surfaced only when it settles first. -/
theorem parallel_failure_classification_amended (g : Gateway) (p : PaymentPayload)
    (r : PaymentRequirements) (sp : ExactSuiPayload)
    (h1 : p.accepted.scheme = "exact") (h2 : r.scheme = "exact")
    (h3 : p.accepted.network = r.network)
    (h4 : p.payload = some sp) (h5 : sp.transaction ≠ "") (h6 : sp.signature ≠ "") :
    (∀ e, promiseAll2 g.simRejectsFirst
        (g.verifySignature sp.transaction sp.signature r.network)
        (g.simulateTransaction sp.transaction r.network) = .error e →
      verify g p r =
        if isSignatureError e then
          { isValid := false,
            invalidReason :=
              some "invalid_exact_sui_payload_transaction_signature_verification_failed",
            invalidMessage := some e, payer := none }
        else
          { isValid := false, invalidReason := some "transaction_simulation_failed",
            invalidMessage := some e, payer := none }) ∧
    (∀ e1 e2, g.verifySignature sp.transaction sp.signature r.network = .error e1 →
      g.simulateTransaction sp.transaction r.network = .error e2 →
      g.simRejectsFirst = false →
      promiseAll2 g.simRejectsFirst
        (g.verifySignature sp.transaction sp.signature r.network)
        (g.simulateTransaction sp.transaction r.network) = .error e1) := by
  constructor
  · intro e he
    simp [verify, h1, h2, h3, h4, h5, h6, he]
  · intro e1 e2 hs hm hf
    simp [promiseAll2, hs, hm, hf]

/-- C5 witness: a lone signature rejection whose message contains
`"Invalid signature"` is classified as the signature failure with
`payer = none`. -/
theorem parallel_failure_classification_amended_witness :
    isSignatureError "Invalid signature" = true ∧
    verify gwSigReject payloadStd reqStd =
      { isValid := false,
        invalidReason :=
          some "invalid_exact_sui_payload_transaction_signature_verification_failed",
        invalidMessage := some "Invalid signature", payer := none } :=
  ⟨by decide, by
    have h := (parallel_failure_classification_amended gwSigReject payloadStd reqStd
      spStd rfl rfl rfl rfl (by decide) (by decide)).1 "Invalid signature" rfl
    simpa using h⟩

/-- C6 counterexample: the claim that BOTH the recipient and the asset
identifier are canonicalized before comparison is false for the recipient.
`payTo = "0x2"` and the owning address `addrTwoFull` are semantically the
same address (equal after normalization), yet the matcher — which compares
the recipient by raw string equality — reports a (false)
`recipient_mismatch`. -/
theorem canonicalization_counterexample :
    normalizeSuiAddress reqShortPayTo.payTo = normalizeSuiAddress addrTwoFull ∧
    reqShortPayTo.payTo ≠ addrTwoFull ∧
    verify gwPadRecipient payloadStd reqShortPayTo =
      { isValid := false,
        invalidReason := some "invalid_exact_sui_payload_recipient_mismatch",
        invalidMessage := none, payer := some addrPayer } := by
  refine ⟨by decide, by decide, by decide⟩

/-- C6 amended: only the ASSET identifiers are canonicalized (via
`normalizeStructTag`, so zero-padding or casing differences never cause a
false asset mismatch); the recipient identifier is compared by exact
string equality with the change's owning address.  With an exact recipient
match and canonically equal asset identifiers, verification succeeds. -/
theorem asset_canonicalization_amended (g : Gateway) (p : PaymentPayload)
    (r : PaymentRequirements) (sp : ExactSuiPayload) (payer : String)
    (d : DryRunResult) (bc : BalanceChange)
    (h1 : p.accepted.scheme = "exact") (h2 : r.scheme = "exact")
    (h3 : p.accepted.network = r.network)
    (h4 : p.payload = some sp) (h5 : sp.transaction ≠ "") (h6 : sp.signature ≠ "")
    (hsig : g.verifySignature sp.transaction sp.signature r.network = .ok payer)
    (hsim : g.simulateTransaction sp.transaction r.network = .ok d)
    (hst : dryRunStatus d = some "success")
    (hbc : d.balanceChanges.getD [] = [bc])
    (hown : bc.owner = .addressOwner r.payTo)
    (hasset : normalizeStructTag bc.coinType = normalizeStructTag r.asset)
    (hamt : r.amount ≤ bc.amount) :
    verify g p r =
      { isValid := true, invalidReason := none, invalidMessage := none,
        payer := some payer } := by
  rw [verify_join g p r sp payer d h1 h2 h3 h4 h5 h6 hsig hsim hst, hbc]
  have hp : (extractAddress bc.owner == r.payTo &&
      coinTypesEqual bc.coinType r.asset) = true := by
    simp [hown, extractAddress, coinTypesEqual, hasset]
  simp [List.find?, hp, not_lt.mpr hamt]

/-- C6 witness: the short SUI coin type in the balance change matches the
fully zero-padded SUI coin type in the requirements, so verification
succeeds despite the syntactic difference. -/
theorem asset_canonicalization_amended_witness :
    normalizeStructTag suiCoinShort = normalizeStructTag reqPadAsset.asset ∧
    suiCoinShort ≠ reqPadAsset.asset ∧
    verify gwSuiCoin payloadStd reqPadAsset =
      { isValid := true, invalidReason := none, invalidMessage := none,
        payer := some addrPayer } :=
  ⟨by decide, by decide,
   asset_canonicalization_amended gwSuiCoin payloadStd reqPadAsset spStd addrPayer _
     { owner := ObjectOwner.addressOwner addrPayTo, coinType := suiCoinShort,
       amount := 100000 }
     rfl rfl rfl rfl (by decide) (by decide) rfl rfl rfl rfl rfl
     (by decide) (by decide)⟩

/-- C7: evaluation of the code at the failing input of the ownership
filter.  With `requirements.payTo = ""`, a SHARED-owned balance change
qualifies as the recipient match (`extractAddress` maps every
non-address owner to the sentinel `""`, which then equals `payTo`) and
verification even succeeds — contradicting the documented rule that
object-owned / shared / immutable changes are never valid payment
recipients. -/
theorem ownership_filter_empty_payto_bug :
    extractAddress ObjectOwner.shared = reqEmptyPayTo.payTo ∧
    verify gwShared payloadStd reqEmptyPayTo =
      { isValid := true, invalidReason := none, invalidMessage := none,
        payer := some addrPayer } := by
  refine ⟨rfl, by decide⟩

/-- C8: result invariants.  Under the boundary hypotheses that the
gateway's signature recovery only returns non-empty identities and its
broadcast only returns non-empty digests: a valid `VerifyResult` has a
non-empty payer, a successful `SettleResult` has a non-empty transaction
digest, and a failed `SettleResult` has an empty transaction. -/
theorem result_invariants (g : Gateway) (p : PaymentPayload) (r : PaymentRequirements)
    (hsig : ∀ tx sg nt pyr, g.verifySignature tx sg nt = .ok pyr → pyr ≠ "")
    (hdig : ∀ tx sg nt dg, g.executeTransaction tx sg nt = .ok dg → dg ≠ "") :
    ((verify g p r).isValid = true →
      ∃ pyr, (verify g p r).payer = some pyr ∧ pyr ≠ "") ∧
    ((settle g p r).1.success = true → (settle g p r).1.transaction ≠ "") ∧
    ((settle g p r).1.success = false → (settle g p r).1.transaction = "") := by
  refine ⟨?_, ?_, ?_⟩
  · intro h
    obtain ⟨sp, pyr, hpl, hok, hshape⟩ := verify_valid_shape g p r h
    exact ⟨pyr, by rw [hshape], hsig _ _ _ _ hok⟩
  · intro h
    by_cases hb : (verify g p r).isValid = true
    · rcases hp : p.payload with _ | sp
      · simp [settle, hb, hp] at h
      · rcases hex : g.executeTransaction sp.transaction sp.signature r.network with e | digest
        · simp [settle, hb, hp, hex] at h
        · rcases hwt : g.waitForTransaction digest r.network with e | u
          · simp [settle, hb, hp, hex, hwt] at h
          · simp [settle, hb, hp, hex, hwt]
            exact hdig _ _ _ _ hex
    · simp only [Bool.not_eq_true] at hb
      simp [settle, hb] at h
  · intro h
    by_cases hb : (verify g p r).isValid = true
    · rcases hp : p.payload with _ | sp
      · simp [settle, hb, hp]
      · rcases hex : g.executeTransaction sp.transaction sp.signature r.network with e | digest
        · simp [settle, hb, hp, hex]
        · rcases hwt : g.waitForTransaction digest r.network with e | u
          · simp [settle, hb, hp, hex, hwt]
          · simp [settle, hb, hp, hex, hwt] at h
    · simp only [Bool.not_eq_true] at hb
      simp [settle, hb]

/-- C8 witness: the invariants instantiated on the fully valid gateway. -/
theorem result_invariants_witness :
    (∃ pyr, (verify gwValid payloadStd reqStd).payer = some pyr ∧ pyr ≠ "") ∧
    ((settle gwValid payloadStd reqStd).1.success = true →
      (settle gwValid payloadStd reqStd).1.transaction ≠ "") ∧
    ((settle gwValid payloadStd reqStd).1.success = false →
      (settle gwValid payloadStd reqStd).1.transaction = "") := by
  have h := result_invariants gwValid payloadStd reqStd
    (by intro tx sg nt pyr hok; simp [gwValid, mkGateway] at hok; subst hok; decide)
    (by intro tx sg nt dg hok; simp [gwValid, mkGateway] at hok; subst hok; decide)
  exact ⟨h.1 (by decide), h.2.1, h.2.2⟩

/-- C9: total, never-throwing boundary.  In the embedding every gateway
fault is a value (`Except.error`), and `verify` / `settle` are total
functions into structured results: for every payload, requirements and
gateway behaviour the outcome is either success or a reason drawn from
the closed taxonomy — no failure mode escapes the tagged
`invalidReason`/`errorReason` channel. -/
theorem total_boundary_taxonomy (g : Gateway) (p : PaymentPayload)
    (r : PaymentRequirements) :
    ((verify g p r).isValid = true ∨
      ∃ s ∈ verifyReasons, (verify g p r).invalidReason = some s) ∧
    ((settle g p r).1.success = true ∨
      ∃ s ∈ settleReasons, (settle g p r).1.errorReason = some s) := by
  refine ⟨verify_taxonomy g p r, ?_⟩
  by_cases hb : (verify g p r).isValid = true
  · rcases hp : p.payload with _ | sp
    · right
      refine ⟨"transaction_failed", by decide, ?_⟩
      simp [settle, hb, hp]
    · rcases hex : g.executeTransaction sp.transaction sp.signature r.network with e | digest
      · right
        refine ⟨"transaction_failed", by decide, ?_⟩
        simp [settle, hb, hp, hex]
      · rcases hwt : g.waitForTransaction digest r.network with e | u
        · right
          refine ⟨"transaction_failed", by decide, ?_⟩
          simp [settle, hb, hp, hex, hwt]
        · left
          simp [settle, hb, hp, hex, hwt]
  · rcases verify_taxonomy g p r with h | ⟨s, hs, hr⟩
    · exact absurd h hb
    · right
      refine ⟨s, List.mem_append_left _ hs, ?_⟩
      simp only [Bool.not_eq_true] at hb
      simp [settle, hb, hr]

/-- C10: broadcast/finality failure handling.  When re-verification
succeeds but the broadcast — or the subsequent finality wait — rejects,
settle returns `success = false`, `errorReason = "transaction_failed"`,
`errorMessage` = the rejection's diagnostic text, an empty transaction,
and the payer recovered by the re-verification. -/
theorem broadcast_failure_handling (g : Gateway) (p : PaymentPayload)
    (r : PaymentRequirements) (sp : ExactSuiPayload)
    (hv : (verify g p r).isValid = true) (hpl : p.payload = some sp) :
    (∀ e, g.executeTransaction sp.transaction sp.signature r.network = .error e →
      settle g p r =
        ({ success := false, network := p.accepted.network, transaction := "",
           errorReason := some "transaction_failed", errorMessage := some e,
           payer := (verify g p r).payer }, true)) ∧
    (∀ digest e, g.executeTransaction sp.transaction sp.signature r.network = .ok digest →
      g.waitForTransaction digest r.network = .error e →
      settle g p r =
        ({ success := false, network := p.accepted.network, transaction := "",
           errorReason := some "transaction_failed", errorMessage := some e,
           payer := (verify g p r).payer }, true)) := by
  constructor
  · intro e he
    simp [settle, hv, hpl, he]
  · intro digest e he hw
    simp [settle, hv, hpl, he, hw]

/-- C10 witness: verification passes and the broadcast rejects with
`"Network error"`; settle reports the structured `transaction_failed`
outcome with the re-verification's payer. -/
theorem broadcast_failure_handling_witness :
    (verify gwExecReject payloadStd reqStd).isValid = true ∧
    settle gwExecReject payloadStd reqStd =
      ({ success := false, network := payloadStd.accepted.network, transaction := "",
         errorReason := some "transaction_failed",
         errorMessage := some "Network error",
         payer := (verify gwExecReject payloadStd reqStd).payer }, true) :=
  ⟨by decide,
   (broadcast_failure_handling gwExecReject payloadStd reqStd spStd
      (by decide) rfl).1 "Network error" rfl⟩

end X402Sui
